import Mathlib

/-!
Verification of the Express HTTP service in `src/app.js`.

The service is embedded shallowly: JSON values become an inductive type,
each request is a method, a path and a body, and the middleware chain of
`app.js` (body parsing, static files, the three routes, the error handler
and the 404 fallback) becomes a pure function from an environment (the
clocks read by the handlers) and a request to a response.
-/

/-- JSON values, as produced by the body parser and by the handlers.
Numbers are modelled as rationals (JavaScript numbers are floats; the
values the service manipulates are exact). -/
inductive Js where
  | null
  | bool (b : Bool)
  | num (q : ℚ)
  | str (s : String)
  | arr (elems : List Js)
  | obj (fields : List (String × Js))

/-- JavaScript truthiness of a defined value: null, false, 0 and the empty
string are falsy; every object and array is truthy. -/
def Js.truthy : Js → Bool
  | .null => false
  | .bool b => b
  | .num q => decide (q ≠ 0)
  | .str s => s != ""
  | .arr _ => true
  | .obj _ => true

/-- Property access `v[k]`: `none` models the JavaScript `undefined`,
which is what destructuring a missing field yields. -/
def Js.getField : Js → String → Option Js
  | .obj fields, k => fields.lookup k
  | _, _ => none

/-- Truthiness of a possibly-undefined value: `undefined` is falsy. -/
def truthyOpt : Option Js → Bool
  | none => false
  | some v => v.truthy

/-- The body of an incoming request, before `express.json()` runs. -/
inductive Body where
  /-- No JSON body was sent (no body, or another content type);
  `express.json()` then leaves `req.body = x7b x7d`, the empty object. -/
  | absent
  /-- A syntactically valid JSON document `v` with a JSON content type. -/
  | json (v : Js)
  /-- A JSON content type whose bytes are not valid JSON:
  `express.json()` throws a parse error. -/
  | malformed

/-- An HTTP request as the service sees it: method, path and body. -/
structure Request where
  method : String
  path : String
  body : Body

/-- A response: a JSON response with a status code, or a static file. -/
inductive Response where
  | json (status : Nat) (body : Js)
  | file (path : String)

/-- The status code of a response (a served static file is a 200). -/
def Response.status : Response → Nat
  | .json s _ => s
  | .file _ => 200

/-- The clocks read while handling one request: `Date.now()` in
milliseconds, and the monotonic nanoseconds since process start that
`process.uptime()` is computed from. -/
structure Env where
  nowMillis : Nat
  uptimeNanos : Nat

/-- `process.uptime()`: seconds since process start, as an exact number. -/
def uptimeSecs (env : Env) : ℚ :=
  (env.uptimeNanos : ℚ) / 1000000000

/-- Zero-padded decimal rendering, as used by `Date.prototype.toISOString`. -/
def padNum (width n : Nat) : String :=
  let s := toString n
  String.mk (List.replicate (width - s.length) '0') ++ s

/-- Proleptic Gregorian civil date (year, month, day) of a day count since
1970-01-01, after Howard Hinnant's `civil_from_days` restricted to
nonnegative day counts. -/
def civilFromDays (days : Nat) : Nat × Nat × Nat :=
  let z := days + 719468
  let era := z / 146097
  let doe := z % 146097
  let yoe := (doe - doe / 1460 + doe / 36524 - doe / 146096) / 365
  let doy := doe - (365 * yoe + yoe / 4 - yoe / 100)
  let mp := (5 * doy + 2) / 153
  let d := doy - (153 * mp + 2) / 5 + 1
  let m := if mp < 10 then mp + 3 else mp - 9
  (yoe + era * 400 + (if m ≤ 2 then 1 else 0), m, d)

/-- `new Date(m).toISOString()` for an epoch instant `m` in milliseconds:
`YYYY-MM-DDTHH:MM:SS.mmmZ`, with the expanded `+YYYYYY` year form beyond
the year 9999. -/
def isoOfMillis (m : Nat) : String :=
  let days := m / 86400000
  let msOfDay := m % 86400000
  let ymd := civilFromDays days
  let yearStr := if ymd.1 < 10000 then padNum 4 ymd.1 else "+" ++ padNum 6 ymd.1
  yearStr ++ "-" ++ padNum 2 ymd.2.1 ++ "-" ++ padNum 2 ymd.2.2 ++ "T" ++
    padNum 2 (msOfDay / 3600000) ++ ":" ++ padNum 2 (msOfDay % 3600000 / 60000) ++ ":" ++
    padNum 2 (msOfDay % 60000 / 1000) ++ "." ++ padNum 3 (msOfDay % 1000) ++ "Z"

/-- `express.json()` applied to a request body: a missing body yields the
empty object, a valid JSON object or array is passed through, and anything
else (a parse failure, or a non-object top level rejected by the parser's
default strict mode) throws, modelled as `none`. -/
def parsedBody : Body → Option Js
  | .absent => some (.obj [])
  | .json v =>
    match v with
    | .obj fields => some (.obj fields)
    | .arr elems => some (.arr elems)
    | _ => none
  | .malformed => none

/-- `express.static('public')`: serves `GET`/`HEAD` requests whose path
names a file of the public directory. -/
def staticMatch (files : List String) (req : Request) : Bool :=
  (req.method == "GET" || req.method == "HEAD") && files.contains req.path

/-- The repository has no `public` directory, so the static middleware
has no file to serve. -/
def publicFiles : List String := []

/-- Response body of the error-handling middleware. -/
def serverErrorBody : Js := .obj [("error", .str "Something went wrong!")]

/-- Response body of the 404 fallback handler. -/
def notFoundBody : Js := .obj [("error", .str "Route not found")]

/-- Response body of the `POST /api/users` validation failure. -/
def requiredErrorBody : Js := .obj [("error", .str "Name and email are required")]

/-- Body of the `GET /health` response, built by its handler from the
clocks: `status`, `timestamp` (ISO-8601 of `Date.now()`) and `uptime`. -/
def healthBody (env : Env) : Js :=
  .obj [("status", .str "healthy"),
        ("timestamp", .str (isoOfMillis env.nowMillis)),
        ("uptime", .num (uptimeSecs env))]

/-- The fixed user list returned by `GET /api/users`. -/
def sampleUsers : Js :=
  .arr [.obj [("id", .num 1), ("name", .str "John Doe"), ("email", .str "john@example.com")],
        .obj [("id", .num 2), ("name", .str "Jane Smith"), ("email", .str "jane@example.com")]]

/-- The `POST /api/users` handler, given the parsed body: destructure
`name` and `email`, answer 400 if either is falsy or missing, otherwise
answer 201 with `Date.now()` as the id and the two values echoed back. -/
def createUser (env : Env) (body : Js) : Response :=
  match body.getField "name", body.getField "email" with
  | some nm, some em =>
    if nm.truthy && em.truthy then
      .json 201 (.obj [("id", .num (env.nowMillis : ℚ)), ("name", nm), ("email", em)])
    else
      .json 400 requiredErrorBody
  | _, _ => .json 400 requiredErrorBody

/-- ASCII lowercase of one character, the case folding the
case-insensitive route regexes of Express apply to their ASCII route
literals. -/
def asciiLower (c : Char) : Char :=
  if 'A' ≤ c ∧ c ≤ 'Z' then Char.ofNat (c.toNat + 32) else c

/-- ASCII lowercase of a path. -/
def lowerPath (s : String) : String :=
  String.mk (s.data.map asciiLower)

/-- Express 4 default matching of a literal route path: with
`caseSensitive` and `strict` off, the compiled pattern is the route
literal, case-insensitive, with one optional trailing slash. -/
def routeMatches (pattern path : String) : Bool :=
  lowerPath path == lowerPath pattern || lowerPath path == lowerPath pattern ++ "/"

/-- Routing after a successful body parse, in the registration order of
`app.js`: static files, `GET /health`, `GET /api/users`,
`POST /api/users`, then the 404 fallback. -/
def route (files : List String) (env : Env) (req : Request) (body : Js) : Response :=
  if staticMatch files req then
    .file req.path
  else if req.method = "GET" ∧ routeMatches "/health" req.path then
    .json 200 (healthBody env)
  else if req.method = "GET" ∧ routeMatches "/api/users" req.path then
    .json 200 sampleUsers
  else if req.method = "POST" ∧ routeMatches "/api/users" req.path then
    createUser env body
  else
    .json 404 notFoundBody

/-- The whole middleware chain: `express.json()` runs first, and a body
parse failure is caught by the error-handling middleware, which answers
500 with a fixed body; otherwise the request is routed. -/
def handle (files : List String) (env : Env) (req : Request) : Response :=
  match parsedBody req.body with
  | none => .json 500 serverErrorBody
  | some body => route files env req body

/-- The application of `app.js`: the middleware chain over the
repository's (empty) public directory. -/
def app (env : Env) (req : Request) : Response :=
  handle publicFiles env req

/-- The responses of a sequence of requests, each handled with the clock
values current at its own arrival; the service keeps no state between
requests. -/
def serveTrace (reqs : List (Env × Request)) : List Response :=
  reqs.map fun er => app er.1 er.2

/-- The request issued by a health probe. -/
def healthReq : Request := ⟨"GET", "/health", Body.absent⟩

/-- The `GET /health` response at a given clock reading. -/
def healthResponseAt (env : Env) : Response := app env healthReq

/-- The `uptime` field of a JSON response, when it is a number. -/
def responseUptime (r : Response) : Option ℚ :=
  match r with
  | .json _ b =>
    match b.getField "uptime" with
    | some (.num q) => some q
    | _ => none
  | .file _ => none

/-- The `timestamp` field of a JSON response, when it is a string. -/
def responseTimestamp (r : Response) : Option String :=
  match r with
  | .json _ b =>
    match b.getField "timestamp" with
    | some (.str s) => some s
    | _ => none
  | .file _ => none

/-- `const port = process.env.PORT || 3000`: the PORT variable when set
and nonempty (kept as the string JavaScript sees), 3000 otherwise. -/
def port (envPORT : Option String) : Js :=
  match envPORT with
  | some s => if (Js.str s).truthy then .str s else .num 3000
  | none => .num 3000

/-- What loading the module does besides defining `app`. -/
inductive LoadEffect where
  | listening (p : Js)
  | noListen

/-- The `require.main === module` guard at the bottom of `app.js`:
listen on the resolved port when run as the main executable, do nothing
when loaded as a module. -/
def moduleLoad (isMain : Bool) (envPORT : Option String) : LoadEffect :=
  if isMain then .listening (port envPORT) else .noListen

/-- `module.exports = app`: the only export is the request-handling
surface. -/
def moduleExports : Env → Request → Response := app

/-! ## Helper lemmas -/

/-- `app` is the chain over the repository's public directory. -/
theorem app_eq (env : Env) (req : Request) : app env req = handle publicFiles env req := rfl

/-- When the body parses, the chain reduces to routing. -/
theorem handle_parsed (files : List String) (env : Env) (req : Request) (v : Js)
    (hb : parsedBody req.body = some v) : handle files env req = route files env req v := by
  unfold handle
  rw [hb]

/-! ## The claims -/

/-- C1: a POST to `/api/users` whose JSON body carries truthy `name` and
`email` values is answered 201 with body exactly the fields `id` (the
current epoch milliseconds, a positive number), `name` and `email`, the
latter two being the values supplied. -/
theorem post_users_success (env : Env) (v nm em : Js)
    (hn : v.getField "name" = some nm) (he : v.getField "email" = some em)
    (htn : nm.truthy = true) (hte : em.truthy = true) (hpos : 0 < env.nowMillis) :
    app env ⟨"POST", "/api/users", Body.json v⟩ =
      Response.json 201 (Js.obj [("id", Js.num (env.nowMillis : ℚ)), ("name", nm), ("email", em)]) ∧
    0 < (env.nowMillis : ℚ) := by
  constructor
  · have hobj : ∃ fields, v = Js.obj fields := by
      cases v <;> simp [Js.getField] at hn ⊢
    obtain ⟨fields, rfl⟩ := hobj
    rw [app_eq, handle_parsed publicFiles env
      ⟨"POST", "/api/users", Body.json (Js.obj fields)⟩ (Js.obj fields) rfl]
    show createUser env (Js.obj fields) = _
    unfold createUser
    rw [hn, he]
    simp [htn, hte]
  · exact_mod_cast hpos

/-- Witness for C1: the "Alice" request of the spec, at a fixed clock. -/
theorem post_users_success_witness :
    app ⟨1700000000000, 5000000000⟩
        ⟨"POST", "/api/users", Body.json (Js.obj [("name", Js.str "Alice"), ("email", Js.str "a@x.com")])⟩ =
      Response.json 201 (Js.obj [("id", Js.num (1700000000000 : ℚ)),
        ("name", Js.str "Alice"), ("email", Js.str "a@x.com")]) ∧
    0 < ((1700000000000 : Nat) : ℚ) :=
  post_users_success ⟨1700000000000, 5000000000⟩
    (Js.obj [("name", Js.str "Alice"), ("email", Js.str "a@x.com")])
    (Js.str "Alice") (Js.str "a@x.com") rfl rfl rfl rfl (by decide)

/-- C2: a POST to `/api/users` whose body parses (including the absent
body and the empty object) is answered 400 with exactly the body
`error = "Name and email are required"` precisely when `name` or `email`
is missing or falsy; no other validation decides between 400 and
success. -/
theorem post_users_validation (env : Env) (b : Body) (v : Js)
    (hb : parsedBody b = some v) :
    app env ⟨"POST", "/api/users", b⟩ = Response.json 400 requiredErrorBody ↔
      (truthyOpt (v.getField "name") && truthyOpt (v.getField "email")) = false := by
  rw [app_eq, handle_parsed publicFiles env ⟨"POST", "/api/users", b⟩ v hb]
  show createUser env v = _ ↔ _
  unfold createUser truthyOpt
  cases hn : v.getField "name" with
  | none =>
    cases he : v.getField "email" with
    | none => simp
    | some em => simp
  | some nm =>
    cases he : v.getField "email" with
    | none => simp
    | some em => cases htn : nm.truthy <;> cases hte : em.truthy <;> simp [htn, hte]

/-- Witness for C2: the empty JSON body is answered 400. -/
theorem post_users_validation_witness :
    app ⟨1700000000000, 5000000000⟩ ⟨"POST", "/api/users", Body.json (Js.obj [])⟩ =
      Response.json 400 requiredErrorBody :=
  (post_users_validation ⟨1700000000000, 5000000000⟩ (Body.json (Js.obj [])) (Js.obj []) rfl).mpr rfl

/-- C6: any request whose processing raises an exception — in this
service, exactly the requests whose JSON body fails to parse — is
answered, whatever its method and path, with status 500 and exactly the
body `error = "Something went wrong!"`: no stack trace or internal
detail is ever echoed. -/
theorem error_middleware_500 (env : Env) (m p : String) :
    app env ⟨m, p, Body.malformed⟩ = Response.json 500 serverErrorBody := rfl

/-- C3 counterexample: a GET to `/api/users` carrying a malformed JSON
body is answered 500 by the error middleware, not 200 with the user
list — the claim's universal over every GET `/api/users` request fails. -/
theorem get_users_malformed_counterexample :
    app ⟨1700000000000, 5000000000⟩ ⟨"GET", "/api/users", Body.malformed⟩ =
      Response.json 500 serverErrorBody ∧
    Response.status (app ⟨1700000000000, 5000000000⟩ ⟨"GET", "/api/users", Body.malformed⟩) ≠ 200 :=
  ⟨rfl, by decide⟩

/-- C3 (amended): every GET to `/api/users` whose body parses (absent or
well-formed JSON) is answered 200 with exactly the two fixed sample
users, in fixed order, regardless of any requests served before it. -/
theorem get_users_fixed_list (pre : List (Env × Request)) (env : Env) (b : Body) (v : Js)
    (hb : parsedBody b = some v) :
    serveTrace (pre ++ [(env, ⟨"GET", "/api/users", b⟩)]) =
      serveTrace pre ++ [Response.json 200 sampleUsers] := by
  have happ : app env ⟨"GET", "/api/users", b⟩ = Response.json 200 sampleUsers := by
    rw [app_eq, handle_parsed publicFiles env ⟨"GET", "/api/users", b⟩ v hb]
    rfl
  simp [serveTrace, happ]

/-- Witness for C3: after a prior POST, a bodyless GET still yields the
fixed list. -/
theorem get_users_fixed_list_witness :
    serveTrace [(⟨1700000000000, 5000000000⟩,
        ⟨"POST", "/api/users", Body.json (Js.obj [("name", Js.str "Alice"), ("email", Js.str "a@x.com")])⟩),
      (⟨1700000001000, 6000000000⟩, ⟨"GET", "/api/users", Body.absent⟩)] =
      serveTrace [(⟨1700000000000, 5000000000⟩,
        ⟨"POST", "/api/users", Body.json (Js.obj [("name", Js.str "Alice"), ("email", Js.str "a@x.com")])⟩)] ++
        [Response.json 200 sampleUsers] :=
  get_users_fixed_list
    [(⟨1700000000000, 5000000000⟩,
      ⟨"POST", "/api/users", Body.json (Js.obj [("name", Js.str "Alice"), ("email", Js.str "a@x.com")])⟩)]
    ⟨1700000001000, 6000000000⟩ Body.absent (Js.obj []) rfl

/-- C4 counterexample: a GET to `/health` carrying a malformed JSON body
is answered 500, not 200 — so there is a failure condition while the
process is alive, and the claim's universal over every GET `/health`
request fails. -/
theorem health_malformed_counterexample :
    app ⟨1700000000000, 5000000000⟩ ⟨"GET", "/health", Body.malformed⟩ =
      Response.json 500 serverErrorBody ∧
    Response.status (app ⟨1700000000000, 5000000000⟩ ⟨"GET", "/health", Body.malformed⟩) ≠ 200 :=
  ⟨rfl, by decide⟩

/-- C4 (amended): every GET to `/health` whose body parses is answered
200 with exactly the fields `status = "healthy"`, `timestamp` the
current time rendered by `toISOString`, and the nonnegative `uptime` in
seconds. -/
theorem health_ok (env : Env) (b : Body) (v : Js) (hb : parsedBody b = some v) :
    app env ⟨"GET", "/health", b⟩ = Response.json 200 (healthBody env) ∧
    healthBody env = Js.obj [("status", Js.str "healthy"),
      ("timestamp", Js.str (isoOfMillis env.nowMillis)),
      ("uptime", Js.num (uptimeSecs env))] ∧
    0 ≤ uptimeSecs env := by
  refine ⟨?_, rfl, ?_⟩
  · rw [app_eq, handle_parsed publicFiles env ⟨"GET", "/health", b⟩ v hb]
    rfl
  · exact div_nonneg (Nat.cast_nonneg _) (by norm_num)

/-- Witness for C4: a bodyless health probe at a fixed clock. -/
theorem health_ok_witness :
    app ⟨1700000000000, 5000000000⟩ ⟨"GET", "/health", Body.absent⟩ =
      Response.json 200 (healthBody ⟨1700000000000, 5000000000⟩) ∧
    healthBody ⟨1700000000000, 5000000000⟩ = Js.obj [("status", Js.str "healthy"),
      ("timestamp", Js.str (isoOfMillis 1700000000000)),
      ("uptime", Js.num (uptimeSecs ⟨1700000000000, 5000000000⟩))] ∧
    0 ≤ uptimeSecs ⟨1700000000000, 5000000000⟩ :=
  health_ok ⟨1700000000000, 5000000000⟩ Body.absent (Js.obj []) rfl

/-- The Express leniency at the route paths themselves: an uppercase or
trailing-slash variant of a route path still hits its route, not the
404 fallback. -/
theorem route_matching_lenient (env : Env) :
    app env ⟨"GET", "/HEALTH", Body.absent⟩ = Response.json 200 (healthBody env) ∧
    app env ⟨"GET", "/health/", Body.absent⟩ = Response.json 200 (healthBody env) ∧
    app env ⟨"GET", "/api/users/", Body.absent⟩ = Response.json 200 sampleUsers :=
  ⟨rfl, rfl, rfl⟩

/-- C7: across any sequence of health probes within one process lifetime
— clock readings non-decreasing from one call to the next — the reported
uptime values are nonnegative and non-decreasing, and the reported
timestamp strings render a non-decreasing sequence of instants. -/
theorem health_monotone (envs : List Env)
    (hclock : envs.Chain' fun a b => a.nowMillis ≤ b.nowMillis ∧ a.uptimeNanos ≤ b.uptimeNanos) :
    (∀ e ∈ envs, responseUptime (healthResponseAt e) = some (uptimeSecs e) ∧ 0 ≤ uptimeSecs e) ∧
    (envs.map uptimeSecs).Chain' (· ≤ ·) ∧
    ∃ ts : List Nat, ts.Chain' (· ≤ ·) ∧
      envs.map (fun e => responseTimestamp (healthResponseAt e)) =
        ts.map (fun t => some (isoOfMillis t)) := by
  refine ⟨fun e _ => ⟨rfl, div_nonneg (Nat.cast_nonneg _) (by norm_num)⟩, ?_,
    envs.map Env.nowMillis, ?_, ?_⟩
  · rw [List.chain'_map]
    refine hclock.imp fun a b hab => ?_
    unfold uptimeSecs
    gcongr
    exact_mod_cast hab.2
  · rw [List.chain'_map]
    exact hclock.imp fun a b hab => hab.1
  · rw [List.map_map]
    rfl

/-- Witness for C7: two successive probes one second apart. -/
theorem health_monotone_witness :
    (∀ e ∈ [Env.mk 1700000000000 5000000000, Env.mk 1700000001000 6500000000],
        responseUptime (healthResponseAt e) = some (uptimeSecs e) ∧ 0 ≤ uptimeSecs e) ∧
    (([Env.mk 1700000000000 5000000000, Env.mk 1700000001000 6500000000].map uptimeSecs).Chain' (· ≤ ·)) ∧
    (∃ ts : List Nat, ts.Chain' (· ≤ ·) ∧
      [Env.mk 1700000000000 5000000000, Env.mk 1700000001000 6500000000].map
          (fun e => responseTimestamp (healthResponseAt e)) =
        ts.map (fun t => some (isoOfMillis t))) :=
  health_monotone [Env.mk 1700000000000 5000000000, Env.mk 1700000001000 6500000000]
    (List.Chain.cons (by decide) List.Chain.nil)

/-- C8: the service keeps no cross-request state: the responses already
produced are unchanged by appending a request, the appended request's
response is a function of that request and its clock readings alone, and
two histories ending in the same request end in the same response. -/
theorem requests_independent (pre1 pre2 : List (Env × Request)) (env : Env) (req : Request) :
    serveTrace (pre1 ++ [(env, req)]) = serveTrace pre1 ++ [app env req] ∧
    (serveTrace (pre1 ++ [(env, req)])).getLast? = (serveTrace (pre2 ++ [(env, req)])).getLast? := by
  have h1 : serveTrace (pre1 ++ [(env, req)]) = serveTrace pre1 ++ [app env req] := by
    simp [serveTrace]
  have h2 : serveTrace (pre2 ++ [(env, req)]) = serveTrace pre2 ++ [app env req] := by
    simp [serveTrace]
  refine ⟨h1, ?_⟩
  rw [h1, h2, List.getLast?_concat, List.getLast?_concat]

/-- C9: loaded as a module, the file starts no listener and only exports
the request-handling surface; run as the main executable it listens on
the port resolved from the PORT variable, 3000 when PORT is unset or
empty, the variable's value otherwise. -/
theorem module_guard :
    (∀ p : Option String, moduleLoad false p = LoadEffect.noListen) ∧
    (∀ p : Option String, moduleLoad true p = LoadEffect.listening (port p)) ∧
    port none = Js.num 3000 ∧
    port (some "") = Js.num 3000 ∧
    (∀ s : String, s ≠ "" → port (some s) = Js.str s) ∧
    moduleExports = app := by
  refine ⟨fun p => rfl, fun p => rfl, rfl, rfl, fun s hs => ?_, rfl⟩
  have ht : (Js.str s).truthy = true := by
    unfold Js.truthy
    simp [hs]
  show (if (Js.str s).truthy = true then Js.str s else Js.num 3000) = Js.str s
  rw [if_pos ht]

/-- Witness for C9: a set, nonempty PORT is used as the port. -/
theorem module_guard_witness : port (some "8080") = Js.str "8080" :=
  module_guard.2.2.2.2.1 "8080" (by decide)

/-- C10: a successful POST to `/api/users` is answered with exactly the
three fields `id`, `name` and `email`; any other field of the request
body is ignored: two parseable bodies agreeing on `name` and `email`,
handled at the same millisecond, get identical responses. -/
theorem post_users_extra_fields :
    (∀ e1 e2 : Env, ∀ v1 v2 : Js,
      parsedBody (Body.json v1) = some v1 → parsedBody (Body.json v2) = some v2 →
      e1.nowMillis = e2.nowMillis →
      v1.getField "name" = v2.getField "name" → v1.getField "email" = v2.getField "email" →
      app e1 ⟨"POST", "/api/users", Body.json v1⟩ = app e2 ⟨"POST", "/api/users", Body.json v2⟩) ∧
    (∀ env : Env, ∀ v nm em : Js, v.getField "name" = some nm → v.getField "email" = some em →
      nm.truthy = true → em.truthy = true →
      app env ⟨"POST", "/api/users", Body.json v⟩ =
        Response.json 201 (Js.obj [("id", Js.num (env.nowMillis : ℚ)), ("name", nm), ("email", em)])) := by
  constructor
  · intro e1 e2 v1 v2 hb1 hb2 hnow hn he
    rw [app_eq, app_eq, handle_parsed publicFiles e1 ⟨"POST", "/api/users", Body.json v1⟩ v1 hb1,
      handle_parsed publicFiles e2 ⟨"POST", "/api/users", Body.json v2⟩ v2 hb2]
    show createUser e1 v1 = createUser e2 v2
    unfold createUser
    rw [hn, he, hnow]
  · intro env v nm em hn he htn hte
    have hobj : ∃ fields, v = Js.obj fields := by
      cases v <;> simp [Js.getField] at hn ⊢
    obtain ⟨fields, rfl⟩ := hobj
    rw [app_eq, handle_parsed publicFiles env
      ⟨"POST", "/api/users", Body.json (Js.obj fields)⟩ (Js.obj fields) rfl]
    show createUser env (Js.obj fields) = _
    unfold createUser
    rw [hn, he]
    simp [htn, hte]

/-- Witness for C10: an extra `role` field does not change the
response. -/
theorem post_users_extra_fields_witness :
    app ⟨1700000000000, 5000000000⟩ ⟨"POST", "/api/users",
        Body.json (Js.obj [("name", Js.str "Alice"), ("email", Js.str "a@x.com"), ("role", Js.str "admin")])⟩ =
      app ⟨1700000000000, 5000000000⟩ ⟨"POST", "/api/users",
        Body.json (Js.obj [("name", Js.str "Alice"), ("email", Js.str "a@x.com")])⟩ :=
  post_users_extra_fields.1 ⟨1700000000000, 5000000000⟩ ⟨1700000000000, 5000000000⟩
    (Js.obj [("name", Js.str "Alice"), ("email", Js.str "a@x.com"), ("role", Js.str "admin")])
    (Js.obj [("name", Js.str "Alice"), ("email", Js.str "a@x.com")]) rfl rfl rfl rfl rfl
